import Mathlib

/-!
Verification development for the aws-mlops-framework repository.

Python dictionaries whose keys and values are strings are embedded as
association lists `List (String × String)`, looked up with `List.lookup`.
Mutating operations (`dict.pop`, `dict[k] = v`) become pure functions that
return the updated dictionary; `copy.copy` of a dictionary becomes a value
copy, so that later updates of the copy leave the original untouched, which
is exactly the shallow-copy semantics for a dict of immutable values.
Python exceptions are embedded with `Except PyErr`.
-/

/-- Python exceptions that the modelled handlers can raise. -/
inductive PyErr where
  | keyError (k : String)
  | requestException
  | otherError
  deriving Repr, DecidableEq

namespace PyDict

/-- A Python `dict` with string keys and string values. -/
abbrev Dict := List (String × String)

/-- `d.pop(k, None)`: remove key `k` (never raises). -/
def pop (d : Dict) (k : String) : Dict :=
  d.filter (fun p => !(p.1 == k))

/-- `d[k] = v`: update in place when the key exists, else append. -/
def setItem (d : Dict) (k v : String) : Dict :=
  if (d.lookup k).isSome then
    d.map (fun p => if p.1 == k then (k, v) else p)
  else
    d ++ [(k, v)]

/-- `d[k]`: raises `KeyError` when the key is absent. -/
def getItem (d : Dict) (k : String) : Except PyErr String :=
  match d.lookup k with
  | some v => .ok v
  | none => .error (.keyError k)

/-- `k in d`. -/
def hasKey (d : Dict) (k : String) : Bool :=
  (d.lookup k).isSome

theorem lookup_pop (d : Dict) (k q : String) :
    (pop d k).lookup q = if q = k then none else d.lookup q := by
  induction d with
  | nil => simp [pop]
  | cons p t ih =>
    obtain ⟨a, v⟩ := p
    by_cases hak : a = k
    · have hb : ((a, v).1 == k) = true := beq_iff_eq.mpr hak
      simp only [pop, List.filter_cons, hb, Bool.not_true, if_neg, Bool.false_eq_true,
        not_false_eq_true, List.lookup]
      rw [pop] at ih
      rw [ih]
      by_cases hqk : q = k
      · simp [hqk]
      · have hq : (q == a) = false := beq_eq_false_iff_ne.mpr (fun h => hqk (hak ▸ h))
        simp [hqk, hq]
    · have hb : ((a, v).1 == k) = false := beq_eq_false_iff_ne.mpr hak
      simp only [pop, List.filter_cons, hb, Bool.not_false, if_pos, List.lookup]
      by_cases hqa : q = a
      · have hq : (q == a) = true := beq_iff_eq.mpr hqa
        have hqk : ¬q = k := fun h => hak ((hqa.symm.trans h) ▸ rfl)
        simp [hq, hqk]
      · have hq : (q == a) = false := beq_eq_false_iff_ne.mpr hqa
        rw [pop] at ih
        simp [hq, ih]

end PyDict

namespace SolutionHelper

open PyDict

/-- `source/lambdas/solution_helper/lambda_function.py`, `_sanitize_data`:
pops `ServiceToken`, `Resource`, `SolutionId` and `UUID` from the given
dictionary (with default `None`, so no pop raises) and returns it. -/
def sanitize_data (resource_properties : Dict) : Dict :=
  pop (pop (pop (pop resource_properties "ServiceToken") "Resource") "SolutionId") "UUID"

/-- `copy.copy` of a dictionary of immutable values: the copy is an
independent object, so mutating it never affects the original; in the pure
embedding this is the identity on the dictionary value. -/
def copyDict (d : PyDict.Dict) : PyDict.Dict := d

/-- A CloudFormation custom-resource event as seen by the handler:
`event["RequestType"]` and `event["ResourceProperties"]`. -/
structure Event where
  requestType : String
  resourceProperties : PyDict.Dict
  deriving Repr, DecidableEq

/-- The `payload` dictionary assembled in the AnonymousMetric branch of
`custom_resource` (keys Solution, gitSelected, bucketSelected, UUID,
TimeStamp, Data). -/
structure MetricsPayload where
  solution : String
  gitSelected : String
  bucketSelected : String
  uuid : String
  timeStamp : String
  data : PyDict.Dict
  deriving Repr, DecidableEq

/-- The observable outcome of one `custom_resource` invocation:
what was added to the shared `helper.Data` dictionary, the value of
`event["ResourceProperties"]` after the call, and the payloads handed to
`requests.post`. -/
structure Outcome where
  dataUpdates : PyDict.Dict
  finalResourceProperties : PyDict.Dict
  postedPayloads : List MetricsPayload
  deriving Repr, DecidableEq

/-- The payload-assembly part of the AnonymousMetric branch
(`lambda_function.py` lines 48-70): sanitize a shallow copy of the
properties, record the request type, read `gitSelected`, `bucketSelected`,
`SolutionId` and `UUID` from the original properties (each read raises
`KeyError` when absent), and build the payload. -/
def assemble_payload (resource_properties : PyDict.Dict)
    (request_type timestamp : String) : Except PyErr MetricsPayload := do
  let metrics_data :=
    PyDict.setItem (sanitize_data (copyDict resource_properties)) "RequestType" request_type
  let gitSel ← PyDict.getItem resource_properties "gitSelected"
  let git_selected := if gitSel.length > 0 then "True" else "False"
  let bucketSel ← PyDict.getItem resource_properties "bucketSelected"
  let existing_bucket_selected := if bucketSel.length > 0 then "True" else "False"
  let solutionId ← PyDict.getItem resource_properties "SolutionId"
  let uuidValue ← PyDict.getItem resource_properties "UUID"
  .ok { solution := solutionId, gitSelected := git_selected,
        bucketSelected := existing_bucket_selected, uuid := uuidValue,
        timeStamp := timestamp, data := metrics_data }

/-- `custom_resource(event, _)` from `lambda_function.py`.  `fresh_uuid`
stands for `str(uuid.uuid4())`, `timestamp` for
`datetime.utcnow().isoformat()`, and `post` for `requests.post`, whose
result (or raised exception) the AnonymousMetric branch logs and otherwise
ignores: the whole branch body sits in a try whose except-clauses catch
`requests.exceptions.RequestException` and `Exception` without re-raising. -/
def custom_resource (event : Event) (fresh_uuid timestamp : String)
    (post : MetricsPayload → Except PyErr Nat) : Except PyErr Outcome := do
  let request_type := event.requestType
  let resource_properties := event.resourceProperties
  let resource ← PyDict.getItem resource_properties "Resource"
  if resource == "UUID" && request_type == "Create" then
    .ok { dataUpdates := [("UUID", fresh_uuid)],
          finalResourceProperties := resource_properties,
          postedPayloads := [] }
  else if resource == "AnonymousMetric" then
    match assemble_payload resource_properties request_type timestamp with
    | .error _e =>
      .ok { dataUpdates := [],
            finalResourceProperties := resource_properties,
            postedPayloads := [] }
    | .ok payload =>
      let _response := post payload
      .ok { dataUpdates := [],
            finalResourceProperties := resource_properties,
            postedPayloads := [payload] }
  else
    .ok { dataUpdates := [],
          finalResourceProperties := resource_properties,
          postedPayloads := [] }

end SolutionHelper

/-- C8: `_sanitize_data` removes exactly the keys ServiceToken, Resource,
SolutionId and UUID; every other key keeps its original value, and the
function is total (it never raises, even when none of the four keys is
present). -/
theorem C8_sanitize_data_removes_exactly_four_keys
    (d : PyDict.Dict) (k : String) :
    (SolutionHelper.sanitize_data d).lookup k =
      if k ∈ ["ServiceToken", "Resource", "SolutionId", "UUID"] then none
      else d.lookup k := by
  simp only [SolutionHelper.sanitize_data, PyDict.lookup_pop]
  by_cases h1 : k = "UUID" <;> by_cases h2 : k = "SolutionId" <;>
    by_cases h3 : k = "Resource" <;> by_cases h4 : k = "ServiceToken" <;>
    simp [h1, h2, h3, h4]

/-- C7: for every event whose ResourceProperties contain Resource
"AnonymousMetric", `custom_resource` leaves `event["ResourceProperties"]`
unchanged (every top-level key still maps to its original value, including
ServiceToken, Resource, SolutionId and UUID, because sanitization runs on a
shallow copy) and writes nothing into the shared `helper.Data` state. -/
theorem C7_custom_resource_does_not_mutate_event
    (event : SolutionHelper.Event) (fresh_uuid timestamp : String)
    (post : SolutionHelper.MetricsPayload → Except PyErr Nat)
    (h : event.resourceProperties.lookup "Resource" = some "AnonymousMetric") :
    ∃ o, SolutionHelper.custom_resource event fresh_uuid timestamp post = .ok o ∧
      o.finalResourceProperties = event.resourceProperties ∧
      (∀ k, o.finalResourceProperties.lookup k = event.resourceProperties.lookup k) ∧
      o.dataUpdates = [] := by
  unfold SolutionHelper.custom_resource
  simp only [PyDict.getItem, h]
  cases hA : SolutionHelper.assemble_payload event.resourceProperties event.requestType timestamp with
  | error e =>
    refine ⟨⟨[], event.resourceProperties, []⟩, ?_, rfl, fun k => rfl, rfl⟩
    simp [Bind.bind, Except.bind, hA]
  | ok payload =>
    refine ⟨⟨[], event.resourceProperties, [payload]⟩, ?_, rfl, fun k => rfl, rfl⟩
    simp [Bind.bind, Except.bind, hA]

/-- Witness for C7 at a concrete AnonymousMetric event. -/
theorem C7_custom_resource_does_not_mutate_event_witness :
    ∃ o, SolutionHelper.custom_resource
        ⟨"Update", [("ServiceToken", "arn:token"), ("Resource", "AnonymousMetric"),
                    ("SolutionId", "SO0136"), ("UUID", "u-1"),
                    ("gitSelected", ""), ("bucketSelected", "my-bucket")]⟩
        "fresh" "2020-01-01T00:00:00"
        (fun _ => Except.error PyErr.requestException) = .ok o ∧
      o.finalResourceProperties =
        [("ServiceToken", "arn:token"), ("Resource", "AnonymousMetric"),
         ("SolutionId", "SO0136"), ("UUID", "u-1"),
         ("gitSelected", ""), ("bucketSelected", "my-bucket")] ∧
      (∀ k, o.finalResourceProperties.lookup k =
        ([("ServiceToken", "arn:token"), ("Resource", "AnonymousMetric"),
          ("SolutionId", "SO0136"), ("UUID", "u-1"),
          ("gitSelected", ""), ("bucketSelected", "my-bucket")] : PyDict.Dict).lookup k) ∧
      o.dataUpdates = [] :=
  C7_custom_resource_does_not_mutate_event _ _ _ _ (by decide)

/-- C9: for every event whose ResourceProperties Resource is
"AnonymousMetric", `custom_resource` returns normally whatever
`requests.post` does and whatever keys the properties are missing: every
exception inside the branch is caught. -/
theorem C9_anonymous_metric_branch_catches_all_exceptions
    (event : SolutionHelper.Event) (fresh_uuid timestamp : String)
    (post : SolutionHelper.MetricsPayload → Except PyErr Nat)
    (h : event.resourceProperties.lookup "Resource" = some "AnonymousMetric") :
    ∃ o, SolutionHelper.custom_resource event fresh_uuid timestamp post = .ok o := by
  unfold SolutionHelper.custom_resource
  simp only [PyDict.getItem, h]
  cases hA : SolutionHelper.assemble_payload event.resourceProperties event.requestType timestamp with
  | error e =>
    exact ⟨⟨[], event.resourceProperties, []⟩, by simp [Bind.bind, Except.bind, hA]⟩
  | ok payload =>
    exact ⟨⟨[], event.resourceProperties, [payload]⟩, by simp [Bind.bind, Except.bind, hA]⟩

/-- Witness for C9: an event missing the gitSelected key (so payload
assembly raises KeyError) still returns normally. -/
theorem C9_anonymous_metric_branch_catches_all_exceptions_witness :
    ∃ o, SolutionHelper.custom_resource
        ⟨"Create", [("Resource", "AnonymousMetric")]⟩
        "fresh" "2020-01-01T00:00:00"
        (fun _ => Except.error PyErr.otherError) = .ok o :=
  C9_anonymous_metric_branch_catches_all_exceptions _ _ _ _ (by decide)

/-- C10: `custom_resource` stores the freshly generated UUID in
`helper.Data` exactly when Resource is "UUID" and RequestType is "Create";
for Update/Delete requests with Resource "UUID" and for any Resource other
than "UUID" and "AnonymousMetric" it stores no data and posts nothing. -/
theorem C10_uuid_branch_iff_create
    (event : SolutionHelper.Event) (fresh_uuid timestamp : String)
    (post : SolutionHelper.MetricsPayload → Except PyErr Nat) (r : String)
    (h : event.resourceProperties.lookup "Resource" = some r) :
    ∃ o, SolutionHelper.custom_resource event fresh_uuid timestamp post = .ok o ∧
      (o.dataUpdates = if r = "UUID" ∧ event.requestType = "Create"
        then [("UUID", fresh_uuid)] else []) ∧
      (¬r = "AnonymousMetric" → o.postedPayloads = []) := by
  unfold SolutionHelper.custom_resource
  simp only [PyDict.getItem, h]
  by_cases hr : r = "UUID"
  · subst hr
    by_cases hc : event.requestType = "Create"
    · refine ⟨⟨[("UUID", fresh_uuid)], event.resourceProperties, []⟩, ?_, ?_, fun _ => rfl⟩
      · simp [Bind.bind, Except.bind, hc]
      · simp [hc]
    · have hcb : (event.requestType == "Create") = false := beq_eq_false_iff_ne.mpr hc
      refine ⟨⟨[], event.resourceProperties, []⟩, ?_, ?_, fun _ => rfl⟩
      · simp [Bind.bind, Except.bind, hcb]
      · simp [hc]
  · have hrb : (r == "UUID") = false := beq_eq_false_iff_ne.mpr hr
    by_cases ha : r = "AnonymousMetric"
    · subst ha
      cases hA : SolutionHelper.assemble_payload event.resourceProperties event.requestType timestamp with
      | error e =>
        refine ⟨⟨[], event.resourceProperties, []⟩, ?_, ?_, fun hna => absurd rfl hna⟩
        · simp [Bind.bind, Except.bind, hrb, hA]
        · simp [hr]
      | ok payload =>
        refine ⟨⟨[], event.resourceProperties, [payload]⟩, ?_, ?_, fun hna => absurd rfl hna⟩
        · simp [Bind.bind, Except.bind, hrb, hA]
        · simp [hr]
    · have hab : (r == "AnonymousMetric") = false := beq_eq_false_iff_ne.mpr ha
      refine ⟨⟨[], event.resourceProperties, []⟩, ?_, ?_, fun _ => rfl⟩
      · simp [Bind.bind, Except.bind, hrb, hab]
      · simp [hr]

/-- Witness for C10 at a concrete Delete request with Resource "UUID". -/
theorem C10_uuid_branch_iff_create_witness :
    ∃ o, SolutionHelper.custom_resource
        ⟨"Delete", [("Resource", "UUID")]⟩ "fresh" "2020-01-01T00:00:00"
        (fun _ => Except.ok 200) = .ok o ∧
      (o.dataUpdates = if ("UUID" : String) = "UUID" ∧
          (SolutionHelper.Event.mk "Delete" [("Resource", "UUID")]).requestType = "Create"
        then [("UUID", "fresh")] else []) ∧
      (¬("UUID" : String) = "AnonymousMetric" → o.postedPayloads = []) :=
  C10_uuid_branch_iff_create _ _ _ _ _ (by decide)

namespace IamPolicies

/-- An `aws_iam.PolicyStatement` reduced to the fields this module sets:
its actions and its resources. -/
structure PolicyStatement where
  actions : List String
  resources : List String
  deriving Repr, DecidableEq

/-- `iam_policies.py`, `sagemaker_policy_statement`.  `smArn` stands for the
module-level `sagemaker_arn_prefix` f-string, whose CloudFormation
pseudo-parameter segments (partition, region, account) resolve only at
deploy time, so it stays abstract.  `endpoint_name` is the CfnParameter's
`value_as_string` and `endpoint_name_provided` is the truth value of the
CloudFormation condition consumed by `core.Fn.condition_if`. -/
def sagemaker_policy_statement (smArn : String) (is_realtime_pipeline : Bool)
    (endpoint_name : String) (endpoint_name_provided : Bool) : PolicyStatement :=
  let actions := ["sagemaker:CreateModel", "sagemaker:DescribeModel", "sagemaker:DeleteModel"]
  let resources := [smArn ++ ":model/mlopssagemakermodel*"]
  if is_realtime_pipeline then
    let actions := actions ++
      ["sagemaker:CreateEndpointConfig", "sagemaker:DescribeEndpointConfig",
       "sagemaker:DeleteEndpointConfig", "sagemaker:CreateEndpoint",
       "sagemaker:DescribeEndpoint", "sagemaker:DeleteEndpoint"]
    let endpoint := if endpoint_name_provided then endpoint_name else "mlopssagemakerendpoint*"
    let resources := resources ++
      [smArn ++ ":endpoint-config/mlopssagemakerendpointconfig*",
       smArn ++ ":endpoint/" ++ endpoint]
    { actions := actions, resources := resources }
  else
    { actions := actions, resources := resources }

end IamPolicies

/-- C2: with `is_realtime_pipeline` false the statement has exactly the
three model actions and the single model ARN resource; with it true the
actions are exactly the three model actions plus the six endpoint-config
and endpoint actions, and the resources additionally hold the
endpoint-config ARN and an endpoint ARN built from the provided endpoint
name when the condition holds and from "mlopssagemakerendpoint*"
otherwise. -/
theorem C2_sagemaker_policy_statement_actions_resources
    (smArn endpoint_name : String) (endpoint_name_provided : Bool) :
    (IamPolicies.sagemaker_policy_statement smArn false endpoint_name endpoint_name_provided =
      { actions := ["sagemaker:CreateModel", "sagemaker:DescribeModel", "sagemaker:DeleteModel"],
        resources := [smArn ++ ":model/mlopssagemakermodel*"] }) ∧
    (IamPolicies.sagemaker_policy_statement smArn true endpoint_name endpoint_name_provided =
      { actions := ["sagemaker:CreateModel", "sagemaker:DescribeModel", "sagemaker:DeleteModel",
                    "sagemaker:CreateEndpointConfig", "sagemaker:DescribeEndpointConfig",
                    "sagemaker:DeleteEndpointConfig", "sagemaker:CreateEndpoint",
                    "sagemaker:DescribeEndpoint", "sagemaker:DeleteEndpoint"],
        resources := [smArn ++ ":model/mlopssagemakermodel*",
                      smArn ++ ":endpoint-config/mlopssagemakerendpointconfig*",
                      smArn ++ ":endpoint/" ++
                        (if endpoint_name_provided then endpoint_name
                         else "mlopssagemakerendpoint*")] }) := by
  refine ⟨rfl, ?_⟩
  cases endpoint_name_provided <;> rfl

namespace DeployActions

/-- The arguments of `deploy_actions.py`, `create_baseline_job_lambda`,
that flow into the Lambda environment variables (each is a string or a
string-valued CloudFormation token at synth time; the five ModelQuality
attributes default to `None` in Python and are only consulted when
`monitoring_type == "ModelQuality"`). -/
structure BaselineJobArgs where
  monitoring_type : String
  baseline_job_name : String
  assets_bucket_name : String
  endpoint_name : String
  baseline_data_location : String
  baseline_job_output_location : String
  instance_type : String
  instance_volume_size : String
  max_runtime_seconds : String
  role_arn : String
  kms_key_arn : String
  stack_name : String
  problem_type : String
  ground_truth_attribute : String
  inference_attribute : String
  probability_attribute : String
  probability_threshold_attribute : String

/-- `dict.update(other)`: assign each key of `other` in order. -/
def dictUpdate (d : PyDict.Dict) (kvs : List (String × String)) : PyDict.Dict :=
  kvs.foldl (fun acc kv => PyDict.setItem acc kv.1 kv.2) d

/-- The `lambda_environment_variables` dictionary built by
`create_baseline_job_lambda` (`deploy_actions.py` lines 259-296): thirteen
base entries, updated with the five ModelQuality entries exactly when
`monitoring_type == "ModelQuality"`. -/
def create_baseline_job_lambda_environment (a : BaselineJobArgs) : PyDict.Dict :=
  let lambda_environment_variables : PyDict.Dict :=
    [("MONITORING_TYPE", a.monitoring_type),
     ("BASELINE_JOB_NAME", a.baseline_job_name),
     ("ASSETS_BUCKET", a.assets_bucket_name),
     ("SAGEMAKER_ENDPOINT_NAME", a.endpoint_name),
     ("BASELINE_DATA_LOCATION", a.baseline_data_location),
     ("BASELINE_JOB_OUTPUT_LOCATION", a.baseline_job_output_location),
     ("INSTANCE_TYPE", a.instance_type),
     ("INSTANCE_VOLUME_SIZE", a.instance_volume_size),
     ("MAX_RUNTIME_SECONDS", a.max_runtime_seconds),
     ("ROLE_ARN", a.role_arn),
     ("KMS_KEY_ARN", a.kms_key_arn),
     ("STACK_NAME", a.stack_name),
     ("LOG_LEVEL", "INFO")]
  if a.monitoring_type == "ModelQuality" then
    dictUpdate lambda_environment_variables
      [("PROBLEM_TYPE", a.problem_type),
       ("GROUND_TRUTH_ATTRIBUTE", a.ground_truth_attribute),
       ("INFERENCE_ATTRIBUTE", a.inference_attribute),
       ("PROBABILITY_ATTRIBUTE", a.probability_attribute),
       ("PROBABILITY_THRESHOLD_ATTRIBUTE", a.probability_threshold_attribute)]
  else
    lambda_environment_variables

/-- The thirteen environment keys present for every monitoring type. -/
def baseline_base_env_keys : List String :=
  ["MONITORING_TYPE", "BASELINE_JOB_NAME", "ASSETS_BUCKET", "SAGEMAKER_ENDPOINT_NAME",
   "BASELINE_DATA_LOCATION", "BASELINE_JOB_OUTPUT_LOCATION", "INSTANCE_TYPE",
   "INSTANCE_VOLUME_SIZE", "MAX_RUNTIME_SECONDS", "ROLE_ARN", "KMS_KEY_ARN",
   "STACK_NAME", "LOG_LEVEL"]

/-- The five environment keys specific to ModelQuality monitoring. -/
def baseline_model_quality_env_keys : List String :=
  ["PROBLEM_TYPE", "GROUND_TRUTH_ATTRIBUTE", "INFERENCE_ATTRIBUTE",
   "PROBABILITY_ATTRIBUTE", "PROBABILITY_THRESHOLD_ATTRIBUTE"]

end DeployActions

set_option maxHeartbeats 1600000 in
/-- C3: the created Lambda's environment contains the five ModelQuality
keys if and only if `monitoring_type` equals "ModelQuality", and the
thirteen base keys for every monitoring type. -/
theorem C3_create_baseline_job_lambda_environment_keys
    (a : DeployActions.BaselineJobArgs) :
    (∀ k ∈ DeployActions.baseline_model_quality_env_keys,
      PyDict.hasKey (DeployActions.create_baseline_job_lambda_environment a) k =
        (a.monitoring_type == "ModelQuality")) ∧
    (∀ k ∈ DeployActions.baseline_base_env_keys,
      PyDict.hasKey (DeployActions.create_baseline_job_lambda_environment a) k = true) := by
  by_cases h : a.monitoring_type = "ModelQuality"
  · constructor <;> intro k hk <;> fin_cases hk <;>
      simp [DeployActions.create_baseline_job_lambda_environment, h,
        DeployActions.dictUpdate, PyDict.setItem, PyDict.hasKey,
        List.foldl, List.lookup]
  · have hfb : (a.monitoring_type == "ModelQuality") = false :=
      beq_eq_false_iff_ne.mpr h
    constructor <;> intro k hk <;> fin_cases hk <;>
      simp [DeployActions.create_baseline_job_lambda_environment, hfb,
        PyDict.hasKey, List.lookup]

/-- Witness for C3 at a concrete ModelQuality argument record and the
PROBLEM_TYPE key. -/
theorem C3_create_baseline_job_lambda_environment_keys_witness :
    PyDict.hasKey
      (DeployActions.create_baseline_job_lambda_environment
        ⟨"ModelQuality", "job", "assets", "ep", "data", "out", "ml.m5.large", "20",
         "3600", "role-arn", "kms-arn", "stack", "Regression", "0", "0", "0", "0.5"⟩)
      "PROBLEM_TYPE" = ("ModelQuality" == "ModelQuality") :=
  (C3_create_baseline_job_lambda_environment_keys
    ⟨"ModelQuality", "job", "assets", "ep", "data", "out", "ml.m5.large", "20",
     "3600", "role-arn", "kms-arn", "stack", "Regression", "0", "0", "0", "0.5"⟩).1
    "PROBLEM_TYPE" (by decide)

namespace Orchestrator

/-- The eleven keys common to all model-monitor API calls
(`orchestrator_fixtures.py`, `required_api_keys_model_monitor`). -/
def mm_common_keys : List String :=
  ["pipeline_type", "model_name", "endpoint_name", "baseline_data",
   "baseline_job_output_location", "data_capture_location", "monitoring_output_location",
   "schedule_expression", "monitor_max_runtime_seconds", "instance_type",
   "instance_volume_size"]

/-- `orchestrator_fixtures.py`, `required_api_keys_model_monitor`:
`problem_type` defaults to `None`, embedded as `Option String`. -/
def required_api_keys_model_monitor (monitoring_type : String)
    (problem_type : Option String) : List String :=
  let common_keys := mm_common_keys
  if monitoring_type != "ModelQuality" then
    common_keys
  else
    let common_model_keys :=
      ["baseline_inference_attribute", "baseline_ground_truth_attribute",
       "problem_type", "monitor_ground_truth_input"]
    let common_model_keys :=
      if problem_type == some "Regression" || problem_type == some "MulticlassClassification" then
        common_model_keys ++ ["monitor_inference_attribute"]
      else
        common_model_keys ++
          ["monitor_probability_attribute", "probability_threshold_attribute",
           "baseline_probability_attribute"]
    common_keys ++ common_model_keys

/-- `orchestrator_fixtures.py`, `required_api_byom_realtime_builtin`. -/
def required_api_byom_realtime_builtin (use_model_registry : String) : List String :=
  let required_keys :=
    ["pipeline_type", "model_name", "inference_instance", "data_capture_location"]
  if use_model_registry == "Yes" then
    required_keys ++ ["model_package_name"]
  else
    required_keys ++ ["model_framework", "model_framework_version", "model_artifact_location"]

end Orchestrator

/-- C4: for a monitoring type other than "ModelQuality" the required-keys
list is exactly the eleven common keys; for "ModelQuality" it is the common
keys plus the four always-required model-quality keys, plus
monitor_inference_attribute for Regression/MulticlassClassification problem
types and the three probability keys for every other problem type. -/
theorem C4_required_api_keys_model_monitor_shape
    (monitoring_type : String) (problem_type : Option String) :
    (monitoring_type ≠ "ModelQuality" →
      Orchestrator.required_api_keys_model_monitor monitoring_type problem_type =
        Orchestrator.mm_common_keys) ∧
    (Orchestrator.required_api_keys_model_monitor "ModelQuality" problem_type =
      Orchestrator.mm_common_keys ++
        (["baseline_inference_attribute", "baseline_ground_truth_attribute",
          "problem_type", "monitor_ground_truth_input"] ++
          (if problem_type = some "Regression" ∨ problem_type = some "MulticlassClassification"
           then ["monitor_inference_attribute"]
           else ["monitor_probability_attribute", "probability_threshold_attribute",
                 "baseline_probability_attribute"]))) := by
  constructor
  · intro hne
    have hb : (monitoring_type != "ModelQuality") = true := bne_iff_ne.mpr hne
    simp [Orchestrator.required_api_keys_model_monitor, hb]
  · by_cases hp : problem_type = some "Regression" ∨ problem_type = some "MulticlassClassification"
    · have hb : (problem_type == some "Regression" ||
          problem_type == some "MulticlassClassification") = true := by
        rcases hp with h | h <;> simp [h]
      simp [Orchestrator.required_api_keys_model_monitor, hb, hp]
    · have h1 : ¬problem_type = some "Regression" := fun h => hp (Or.inl h)
      have h2 : ¬problem_type = some "MulticlassClassification" := fun h => hp (Or.inr h)
      have hb : (problem_type == some "Regression" ||
          problem_type == some "MulticlassClassification") = false := by
        simp [beq_eq_false_iff_ne.mpr h1, beq_eq_false_iff_ne.mpr h2]
      simp [Orchestrator.required_api_keys_model_monitor, hb, hp]

/-- Witness for C4 at monitoring type "DataQuality". -/
theorem C4_required_api_keys_model_monitor_shape_witness :
    Orchestrator.required_api_keys_model_monitor "DataQuality" none =
      Orchestrator.mm_common_keys :=
  (C4_required_api_keys_model_monitor_shape "DataQuality" none).1 (by decide)

/-- C5: the byom_realtime_builtin required-keys list always contains
pipeline_type, model_name, inference_instance and data_capture_location;
model_package_name exactly when use_model_registry is "Yes"; and
model_framework, model_framework_version and model_artifact_location
exactly when use_model_registry is not "Yes". -/
theorem C5_required_api_byom_realtime_builtin_keys (use_model_registry : String) :
    ("pipeline_type" ∈ Orchestrator.required_api_byom_realtime_builtin use_model_registry ∧
     "model_name" ∈ Orchestrator.required_api_byom_realtime_builtin use_model_registry ∧
     "inference_instance" ∈ Orchestrator.required_api_byom_realtime_builtin use_model_registry ∧
     "data_capture_location" ∈ Orchestrator.required_api_byom_realtime_builtin use_model_registry) ∧
    ("model_package_name" ∈ Orchestrator.required_api_byom_realtime_builtin use_model_registry ↔
      use_model_registry = "Yes") ∧
    ("model_framework" ∈ Orchestrator.required_api_byom_realtime_builtin use_model_registry ↔
      ¬use_model_registry = "Yes") ∧
    ("model_framework_version" ∈ Orchestrator.required_api_byom_realtime_builtin use_model_registry ↔
      ¬use_model_registry = "Yes") ∧
    ("model_artifact_location" ∈ Orchestrator.required_api_byom_realtime_builtin use_model_registry ↔
      ¬use_model_registry = "Yes") := by
  by_cases hu : use_model_registry = "Yes"
  · simp [Orchestrator.required_api_byom_realtime_builtin, hu]
  · have hb : (use_model_registry == "Yes") = false := beq_eq_false_iff_ne.mpr hu
    simp [Orchestrator.required_api_byom_realtime_builtin, hb, hu]

namespace Orchestrator

/-- A value in the fixture's BYOM API event: a plain string or a
{dev, staging, prod} object (the `is_multi` form). -/
inductive JVal where
  | s (v : String)
  | obj (fields : List (String × String))
  deriving Repr, DecidableEq

/-- A Python dict with string keys and `JVal` values. -/
abbrev JDict := List (String × JVal)

/-- `k in d` for a `JDict`. -/
def jHasKey (d : JDict) (k : String) : Bool :=
  (d.lookup k).isSome

/-- `maping["inference_instance"][str(is_multi)]` in `api_byom_event`;
`environ` stands for `os.environ`. -/
def inference_instance_value (environ : String → String) (is_multi : Bool) : JVal :=
  if is_multi then
    .obj [("dev", environ "INSTANCETYPE"), ("staging", environ "INSTANCETYPE"),
          ("prod", environ "INSTANCETYPE")]
  else
    .s (environ "INSTANCETYPE")

/-- `maping["batch_job_output_location"][str(is_multi)]`. -/
def batch_job_output_location_value (environ : String → String) (is_multi : Bool) : JVal :=
  if is_multi then
    .obj [("dev", "bucket/dev_output"), ("staging", "bucket/staging_output"),
          ("prod", "bucket/prod_output")]
  else
    .s (environ "BATCHOUTPUT")

/-- `maping["data_capture_location"][str(is_multi)]`. -/
def data_capture_location_value (environ : String → String) (is_multi : Bool) : JVal :=
  if is_multi then
    .obj [("dev", "bucket/dev_datacapture"), ("staging", "bucket/staging_datacapture"),
          ("prod", "bucket/prod_datacapture")]
  else
    .s (environ "DATACAPTURE")

/-- `maping["endpoint_name"][str(is_multi)]`. -/
def endpoint_name_value (is_multi : Bool) : JVal :=
  if is_multi then
    .obj [("dev", "dev-endpoint"), ("staging", "staging-endpoint"),
          ("prod", "prod-endpoint")]
  else
    .s "test-endpoint"

/-- `orchestrator_fixtures.py`, `api_byom_event(pipeline_type, is_multi,
endpint_name_provided)`: the base event plus the conditional batch,
realtime, builtin and custom entries, in source order. -/
def api_byom_event (environ : String → String) (pipeline_type : String)
    (is_multi : Bool) (endpoint_name_provided : Bool) : JDict :=
  let event : JDict :=
    [("pipeline_type", .s pipeline_type),
     ("model_name", .s "testmodel"),
     ("model_artifact_location", .s (environ "MODELARTIFACTLOCATION")),
     ("model_package_name", .s (environ "MODEL_PACKAGE_NAME"))]
  let event := event ++ [("inference_instance", inference_instance_value environ is_multi)]
  let event :=
    if pipeline_type ∈ ["byom_batch_builtin", "byom_batch_custom"] then
      event ++ [("batch_inference_data", .s (environ "INFERENCEDATA")),
                ("batch_job_output_location", batch_job_output_location_value environ is_multi)]
    else event
  let event :=
    if pipeline_type ∈ ["byom_realtime_builtin", "byom_realtime_custom"] then
      let event := event ++ [("data_capture_location", data_capture_location_value environ is_multi)]
      if endpoint_name_provided then
        event ++ [("endpoint_name", endpoint_name_value is_multi)]
      else event
    else event
  if pipeline_type ∈ ["byom_realtime_builtin", "byom_batch_builtin"] then
    event ++ [("model_framework", .s "xgboost"), ("model_framework_version", .s "0.90-1")]
  else if pipeline_type ∈ ["byom_realtime_custom", "byom_batch_custom"] then
    event ++ [("custom_image_uri", .s "custom-image-uri")]
  else event

end Orchestrator

/-- C6: for each of the four BYOM pipeline types, the constructed event
always contains pipeline_type, model_name, model_artifact_location,
model_package_name and inference_instance; batch_inference_data and
batch_job_output_location exactly for the batch types; data_capture_location
exactly for the realtime types; model_framework and model_framework_version
exactly for the builtin types; and custom_image_uri exactly for the custom
types. -/
theorem C6_api_byom_event_keys
    (environ : String → String) (pipeline_type : String)
    (is_multi endpoint_name_provided : Bool)
    (hp : pipeline_type ∈
      ["byom_realtime_builtin", "byom_realtime_custom",
       "byom_batch_builtin", "byom_batch_custom"]) :
    (Orchestrator.jHasKey (Orchestrator.api_byom_event environ pipeline_type is_multi endpoint_name_provided) "pipeline_type" = true ∧
     Orchestrator.jHasKey (Orchestrator.api_byom_event environ pipeline_type is_multi endpoint_name_provided) "model_name" = true ∧
     Orchestrator.jHasKey (Orchestrator.api_byom_event environ pipeline_type is_multi endpoint_name_provided) "model_artifact_location" = true ∧
     Orchestrator.jHasKey (Orchestrator.api_byom_event environ pipeline_type is_multi endpoint_name_provided) "model_package_name" = true ∧
     Orchestrator.jHasKey (Orchestrator.api_byom_event environ pipeline_type is_multi endpoint_name_provided) "inference_instance" = true) ∧
    (Orchestrator.jHasKey (Orchestrator.api_byom_event environ pipeline_type is_multi endpoint_name_provided) "batch_inference_data" = true ↔
      pipeline_type ∈ ["byom_batch_builtin", "byom_batch_custom"]) ∧
    (Orchestrator.jHasKey (Orchestrator.api_byom_event environ pipeline_type is_multi endpoint_name_provided) "batch_job_output_location" = true ↔
      pipeline_type ∈ ["byom_batch_builtin", "byom_batch_custom"]) ∧
    (Orchestrator.jHasKey (Orchestrator.api_byom_event environ pipeline_type is_multi endpoint_name_provided) "data_capture_location" = true ↔
      pipeline_type ∈ ["byom_realtime_builtin", "byom_realtime_custom"]) ∧
    (Orchestrator.jHasKey (Orchestrator.api_byom_event environ pipeline_type is_multi endpoint_name_provided) "model_framework" = true ↔
      pipeline_type ∈ ["byom_realtime_builtin", "byom_batch_builtin"]) ∧
    (Orchestrator.jHasKey (Orchestrator.api_byom_event environ pipeline_type is_multi endpoint_name_provided) "model_framework_version" = true ↔
      pipeline_type ∈ ["byom_realtime_builtin", "byom_batch_builtin"]) ∧
    (Orchestrator.jHasKey (Orchestrator.api_byom_event environ pipeline_type is_multi endpoint_name_provided) "custom_image_uri" = true ↔
      pipeline_type ∈ ["byom_realtime_custom", "byom_batch_custom"]) := by
  fin_cases hp <;> cases endpoint_name_provided <;>
    simp [Orchestrator.api_byom_event, Orchestrator.jHasKey, List.lookup]

/-- Witness for C6 at pipeline type byom_realtime_builtin with a trivial
environment. -/
theorem C6_api_byom_event_keys_witness :
    (Orchestrator.jHasKey (Orchestrator.api_byom_event (fun _ => "v") "byom_realtime_builtin" false false) "pipeline_type" = true ∧
     Orchestrator.jHasKey (Orchestrator.api_byom_event (fun _ => "v") "byom_realtime_builtin" false false) "model_name" = true ∧
     Orchestrator.jHasKey (Orchestrator.api_byom_event (fun _ => "v") "byom_realtime_builtin" false false) "model_artifact_location" = true ∧
     Orchestrator.jHasKey (Orchestrator.api_byom_event (fun _ => "v") "byom_realtime_builtin" false false) "model_package_name" = true ∧
     Orchestrator.jHasKey (Orchestrator.api_byom_event (fun _ => "v") "byom_realtime_builtin" false false) "inference_instance" = true) ∧
    (Orchestrator.jHasKey (Orchestrator.api_byom_event (fun _ => "v") "byom_realtime_builtin" false false) "batch_inference_data" = true ↔
      ("byom_realtime_builtin" : String) ∈ ["byom_batch_builtin", "byom_batch_custom"]) ∧
    (Orchestrator.jHasKey (Orchestrator.api_byom_event (fun _ => "v") "byom_realtime_builtin" false false) "batch_job_output_location" = true ↔
      ("byom_realtime_builtin" : String) ∈ ["byom_batch_builtin", "byom_batch_custom"]) ∧
    (Orchestrator.jHasKey (Orchestrator.api_byom_event (fun _ => "v") "byom_realtime_builtin" false false) "data_capture_location" = true ↔
      ("byom_realtime_builtin" : String) ∈ ["byom_realtime_builtin", "byom_realtime_custom"]) ∧
    (Orchestrator.jHasKey (Orchestrator.api_byom_event (fun _ => "v") "byom_realtime_builtin" false false) "model_framework" = true ↔
      ("byom_realtime_builtin" : String) ∈ ["byom_realtime_builtin", "byom_batch_builtin"]) ∧
    (Orchestrator.jHasKey (Orchestrator.api_byom_event (fun _ => "v") "byom_realtime_builtin" false false) "model_framework_version" = true ↔
      ("byom_realtime_builtin" : String) ∈ ["byom_realtime_builtin", "byom_batch_builtin"]) ∧
    (Orchestrator.jHasKey (Orchestrator.api_byom_event (fun _ => "v") "byom_realtime_builtin" false false) "custom_image_uri" = true ↔
      ("byom_realtime_builtin" : String) ∈ ["byom_realtime_custom", "byom_batch_custom"]) :=
  C6_api_byom_event_keys (fun _ => "v") "byom_realtime_builtin" false false (by decide)

namespace Inference

/-- JSON values as produced by `json.loads`. -/
inductive Json where
  | str (s : String)
  | num (n : Int)
  | boolean (b : Bool)
  | null
  | arr (xs : List Json)
  | dict (fields : List (String × Json))

/-- `body[k]` on a decoded JSON value: `KeyError` when the key is absent
from a JSON object, and a (type) error when the value is not an object. -/
def jsonGetItem (j : Json) (k : String) : Except PyErr Json :=
  match j with
  | .dict fields =>
    match fields.lookup k with
    | some v => .ok v
    | none => .error (.keyError k)
  | _ => .error .otherError

/-- One `invoke_endpoint` call with its keyword arguments. -/
structure InvokeCall where
  endpointName : String
  body : Json
  contentType : Json

/-- The sagemaker-runtime `invoke_endpoint` response; only its `Body`
stream is consumed, so the stream type stays abstract. -/
structure SMResponse (β : Type) where
  body : β

/-- The API Gateway response dictionary built by `invoke`. -/
structure LambdaResponse where
  statusCode : Nat
  isBase64Encoded : Bool
  body : String
  headers : List (String × String)

/-- An API Gateway proxy event; only `event["body"]` is consumed. -/
structure ApiGatewayEvent where
  body : String

/-- `inference/main.py`, `invoke`: calls `sm_client.invoke_endpoint` with
the endpoint name and the event body's "payload" and "ContentType" values,
decodes the response's Body (`read_decode` stands for the library call
`response["Body"].read().decode()`), and returns the response dictionary.
The second component records every `invoke_endpoint` call made. -/
def invoke (β : Type) (sm_client : InvokeCall → SMResponse β)
    (read_decode : β → Except PyErr String)
    (event_body : Json) (endpoint_name : String) :
    Except PyErr (LambdaResponse × List InvokeCall) := do
  let payload ← jsonGetItem event_body "payload"
  let contentType ← jsonGetItem event_body "ContentType"
  let call : InvokeCall := ⟨endpoint_name, payload, contentType⟩
  let response := sm_client call
  let predictions ← read_decode response.body
  .ok ({ statusCode := 200, isBase64Encoded := false, body := predictions,
         headers := [("Content-Type", "plain/text")] }, [call])

/-- `inference/main.py`, `handler` without its decorator: parse the event
body with `json.loads` (library behaviour passed in as `json_loads`), read
the ENDPOINT_NAME environment variable, and delegate to `invoke`. -/
def handler_body (β : Type) (json_loads : String → Except PyErr Json)
    (environ : String → Option String) (sm_client : InvokeCall → SMResponse β)
    (read_decode : β → Except PyErr String) (event_body_raw : String) :
    Except PyErr (LambdaResponse × List InvokeCall) := do
  let event_body ← json_loads event_body_raw
  let endpoint_name ←
    match environ "ENDPOINT_NAME" with
    | some v => Except.ok v
    | none => Except.error (PyErr.keyError "ENDPOINT_NAME")
  invoke β sm_client read_decode event_body endpoint_name

/-- Modelled from the spec: `shared.wrappers.api_exception_handler` is not
under src/ (only `inference/main.py` imports it).  Per the spec the
handlers are thin wrappers that forward requests to the SDK call, so the
decorator returns the wrapped handler's result unchanged when no exception
is raised, and maps a raised exception to some error response `on_error e`
with no endpoint call of its own. -/
def api_exception_handler (on_error : PyErr → LambdaResponse)
    (inner : Except PyErr (LambdaResponse × List InvokeCall)) :
    LambdaResponse × List InvokeCall :=
  match inner with
  | .ok r => r
  | .error e => (on_error e, [])

/-- The decorated `handler` as deployed: `api_exception_handler` applied to
the handler body, on the event's `body` string. -/
def handler (β : Type) (on_error : PyErr → LambdaResponse)
    (json_loads : String → Except PyErr Json) (environ : String → Option String)
    (sm_client : InvokeCall → SMResponse β) (read_decode : β → Except PyErr String)
    (event : ApiGatewayEvent) : LambdaResponse × List InvokeCall :=
  api_exception_handler on_error
    (handler_body β json_loads environ sm_client read_decode event.body)

end Inference

/-- C1: for every event whose body JSON-decodes to a dictionary with keys
"payload" and "ContentType", the inference handler calls `invoke_endpoint`
exactly once — with EndpointName from the ENDPOINT_NAME environment
variable, Body the "payload" value and ContentType the "ContentType"
value — and returns statusCode 200, isBase64Encoded False, body the decoded
response Body, and headers Content-Type: plain/text. -/
theorem C1_inference_handler_invokes_endpoint_once
    (β : Type) (on_error : PyErr → Inference.LambdaResponse)
    (json_loads : String → Except PyErr Inference.Json)
    (environ : String → Option String)
    (sm_client : Inference.InvokeCall → Inference.SMResponse β)
    (read_decode : β → Except PyErr String)
    (event : Inference.ApiGatewayEvent)
    (d : List (String × Inference.Json)) (p c : Inference.Json) (en s : String)
    (hj : json_loads event.body = .ok (.dict d))
    (hp : d.lookup "payload" = some p)
    (hc : d.lookup "ContentType" = some c)
    (he : environ "ENDPOINT_NAME" = some en)
    (hd : read_decode (sm_client ⟨en, p, c⟩).body = .ok s) :
    Inference.handler β on_error json_loads environ sm_client read_decode event =
      ({ statusCode := 200, isBase64Encoded := false, body := s,
         headers := [("Content-Type", "plain/text")] }, [⟨en, p, c⟩]) := by
  simp [Inference.handler, Inference.api_exception_handler, Inference.handler_body,
    Inference.invoke, Inference.jsonGetItem, hj, hp, hc, he, hd,
    Bind.bind, Except.bind]

/-- Witness for C1 at a concrete event, client and environment. -/
theorem C1_inference_handler_invokes_endpoint_once_witness :
    Inference.handler Unit (fun _ => ⟨500, false, "err", []⟩)
      (fun _ => .ok (.dict [("payload", .str "1,2,3"), ("ContentType", .str "text/csv")]))
      (fun _ => some "my-endpoint")
      (fun _ => ⟨()⟩) (fun _ => .ok "prediction")
      ⟨"raw-body"⟩ =
      ({ statusCode := 200, isBase64Encoded := false, body := "prediction",
         headers := [("Content-Type", "plain/text")] },
       [⟨"my-endpoint", .str "1,2,3", .str "text/csv"⟩]) :=
  C1_inference_handler_invokes_endpoint_once Unit _ _ _ _ _ _
    [("payload", .str "1,2,3"), ("ContentType", .str "text/csv")]
    (.str "1,2,3") (.str "text/csv") "my-endpoint" "prediction"
    rfl rfl rfl rfl rfl
